import Mathlib

/-!
Shallow embedding of `src/kafka-embedded.js`, the orchestration harness that
provisions and tears down one ephemeral Kafka broker instance.  Pure data flow
is translated to Lean functions; the mutable `KafkaManager` object is threaded
as explicit state; promise chains become event traces; each interaction with
the operating system (port probe, tmp directory, template read, `exec`,
`spawn`) is an input of the model, supplied through a `World` record.
-/

namespace EmbeddedKafka

/-- Errors surfaced by the OS / external collaborators (portfinder, tmp,
properties-parser, exec, spawn).  The harness never rewraps them, so a plain
payload type suffices. -/
abbrev Err := String

/-- CONFIG.BASE_PORT: portfinder scans upward from this port. -/
def BASE_PORT : Nat := 18000

/-- CONFIG.WAIT_TIME: the fixed startup wait, in milliseconds. -/
def WAIT_TIME : Nat := 10000

/-- `path.join` for two components, modelled with the POSIX separator
(normalization of duplicate separators is irrelevant to the claims). -/
def pathJoin (a b : String) : String := a ++ "/" ++ b

/-- CONFIG.PATHS.KAFKA_BIN, relative to the source directory. -/
def kafkaBinDir : String := "../kafka/bin"

/-- The storage-format script path chosen by host platform
(CONFIG.IS_WINDOWS). -/
def storageScript (isWin : Bool) : String :=
  if isWin then pathJoin (pathJoin kafkaBinDir "windows") "kafka-storage.bat"
  else pathJoin kafkaBinDir "kafka-storage.sh"

/-- The server-start script path chosen by host platform. -/
def serverStartScript (isWin : Bool) : String :=
  if isWin then pathJoin (pathJoin kafkaBinDir "windows") "kafka-server-start.bat"
  else pathJoin kafkaBinDir "kafka-server-start.sh"

/-- The server-stop script path chosen by host platform. -/
def serverStopScript (isWin : Bool) : String :=
  if isWin then pathJoin (pathJoin kafkaBinDir "windows") "kafka-server-stop.bat"
  else pathJoin kafkaBinDir "kafka-server-stop.sh"

/-- The pair resolved by `allocatePorts`:
`{ kafkaPort: ports[0], controllerPort: ports[1] }`. -/
structure PortPair where
  kafkaPort : Nat
  controllerPort : Nat
deriving Repr, DecidableEq

/-- Model of the `portfinder.getPort` dependency: scan upward from `start` and
return the first port the OS reports bindable.  `bindable` is the OS probe;
`fuel` bounds the scan (portfinder itself stops at the highest port number and
reports an error). -/
def getPort (bindable : Nat → Bool) : Nat → Nat → Option Nat
  | 0, _ => none
  | fuel + 1, start =>
    if bindable start then some start else getPort bindable fuel (start + 1)

/-- The error portfinder reports when the scan finds no open port. -/
def portfinderError : Err := "Error: No open ports found"

/-- Model of `portfinder.getPorts(2, {}, cb)`: the first bindable port at or
above the base port, then the first bindable port strictly above it. -/
def getPorts2 (bindable : Nat → Bool) (fuel : Nat) : Option PortPair :=
  match getPort bindable fuel BASE_PORT with
  | none => none
  | some p0 =>
    match getPort bindable fuel (p0 + 1) with
    | none => none
    | some p1 => some ⟨p0, p1⟩

/-- The state of `new StringDecoder('utf8')`: the buffered bytes of an
incomplete multi-byte sequence. -/
structure DecoderState where
  pending : List Nat
deriving Repr, DecidableEq

/-- The per-instance mutable state a `KafkaManager` object owns:
`this.takenPorts` and `this.decoder` (the constructor's other statements
configure module-global collaborators: tmp cleanup, portfinder.basePort,
console overrides). -/
structure KafkaManager where
  takenPorts : List Nat
  decoder : DecoderState
deriving Repr, DecidableEq

/-- The state set up by the `KafkaManager` constructor:
`this.takenPorts = []` and a fresh utf-8 decoder. -/
def KafkaManager.init : KafkaManager := { takenPorts := [], decoder := ⟨[]⟩ }

/-- `allocatePorts`: resolve `portfinder.getPorts(2, {}, cb)` into a
`PortPair`, rejecting with portfinder's error when the probe fails.  The
method body touches no field of `this`; the manager state is threaded
through unchanged. -/
def KafkaManager.allocatePorts (m : KafkaManager) (bindable : Nat → Bool)
    (fuel : Nat) : KafkaManager × Except Err PortPair :=
  (m,
    match getPorts2 bindable fuel with
    | some pair => .ok pair
    | none => .error portfinderError)

/-- `getAvailablePort`: ask portfinder for a port, retrying while the answer is
in `this.takenPorts`.  (Dead code: the provisioning pipeline never calls it.)
`retries` bounds the retry loop of `getPortRecursive`. -/
def KafkaManager.getAvailablePort (m : KafkaManager) (bindable : Nat → Bool)
    (scanFuel : Nat) : Nat → Option Nat
  | 0 => none
  | retries + 1 =>
    match getPort bindable scanFuel BASE_PORT with
    | none => none
    | some p =>
      if p ∈ m.takenPorts then m.getAvailablePort bindable scanFuel retries
      else some p

/-- `createTempDirectory(prefix)`: a pass-through wrapper over `tmp.dir`,
whose outcome (a fresh directory path, or a failure) is an input of the
model. -/
def createTempDirectory (_pfx : String) (tmpResult : Except Err String) :
    Except Err String :=
  tmpResult

/-- A parsed properties file: ordered key/value pairs. -/
abbrev Props := List (String × String)

/-- properties-parser editor `set`: overwrite the value stored under an
existing key, or append the binding when the key is absent. -/
def propsSet (props : Props) (k v : String) : Props :=
  if props.any (fun kv => kv.1 == k) then
    props.map (fun kv => if kv.1 == k then (k, v) else kv)
  else props ++ [(k, v)]

/-- `kafkaDir.replace` over the backslash regex: double every backslash, so
Windows path separators survive properties-file escaping. -/
def escapeBackslashChar (c : Char) : List Char :=
  if c = '\\' then ['\\', '\\'] else [c]

/-- The `logDir` computed by `createKafkaConfig` from the workspace path. -/
def escapeBackslashes (s : String) : String :=
  ⟨(s.data.map escapeBackslashChar).flatten⟩

/-- What `createKafkaConfig` resolves with (the saved file path) together with
the property set `props.save` persists at that path. -/
structure ConfigResult where
  filePath : String
  saved : Props
deriving Repr, DecidableEq

/-- `createKafkaConfig`: load the template through the properties editor
(rejecting with the editor's error when the template cannot be read),
overwrite the five instance-specific keys, and save the merged set to
`kafkaDir/server.properties`.  The save callback ignores write errors and
resolves with the file name. -/
def createKafkaConfig (templateResult : Except Err Props) (kafkaDir : String)
    (controllerPort kafkaPort : Nat) : Except Err ConfigResult :=
  match templateResult with
  | .error e => .error e
  | .ok props =>
    let logDir := escapeBackslashes kafkaDir
    let props := propsSet props "log.dirs" logDir
    let props := propsSet props "controller.quorum.bootstrap.servers"
      ("localhost:" ++ toString controllerPort)
    let props := propsSet props "listeners"
      ("PLAINTEXT://localhost:" ++ toString kafkaPort
        ++ ",CONTROLLER://localhost:" ++ toString controllerPort)
    let props := propsSet props "advertised.listeners"
      ("PLAINTEXT://localhost:" ++ toString kafkaPort
        ++ ",CONTROLLER://localhost:" ++ toString controllerPort)
    let props := propsSet props "controller.listener.names" "CONTROLLER"
    .ok { filePath := pathJoin kafkaDir "server.properties", saved := props }

/-- The five keys `createKafkaConfig` overwrites. -/
def overriddenKeys : List String :=
  ["log.dirs", "controller.quorum.bootstrap.servers", "listeners",
   "advertised.listeners", "controller.listener.names"]

/-- The shell command string built by `initializeStorage`: the storage script's
`format` subcommand, the cluster id produced afresh by the same script's
`random-uuid` subcommand via command substitution, and the config path. -/
def formatCommand (isWin : Bool) (propertiesFile : String) : String :=
  storageScript isWin ++ " format -t \"$(" ++ storageScript isWin
    ++ " random-uuid)\" -c " ++ propertiesFile ++ " --standalone"

/-- `initializeStorage`: hand the format command to `exec` once; reject with
the exec error when the command fails (non-zero exit), resolve with no value
otherwise.  The second component records the commands handed to `exec`, in
order; `execError` is the outcome of the external command. -/
def initializeStorage (isWin : Bool) (execError : Option Err)
    (propertiesFile : String) : Except Err Unit × List String :=
  (match execError with
   | some e => .error e
   | none => .ok (),
   [formatCommand isWin propertiesFile])

/-- The observable shutdown actions, in the order the promises emit them. -/
inductive ShutdownEvent
  | sigkillSent
  | exitObserved (code : Int)
  | stopScriptSpawned (script : String)
  | stopScriptExited
deriving Repr, DecidableEq

/-- A settled promise computation together with the ordered events it
emitted while running. -/
def ShutdownM (α : Type) : Type := List ShutdownEvent × α

/-- `.then` on settled promises: run the first computation, then the
continuation, concatenating their event logs. -/
def ShutdownM.bind {α β : Type} (x : ShutdownM α) (f : α → ShutdownM β) :
    ShutdownM β :=
  ((x.1 ++ (f x.2).1 : List ShutdownEvent), (f x.2).2)

/-- `killProcess(proc)`: register the exit listener, send SIGKILL, and resolve
only once the child's exit event (carrying its code) has fired. -/
def killProcess (exitCode : Int) : ShutdownM Unit :=
  ([.sigkillSent, .exitObserved exitCode], ())

/-- `stopKafkaServer()`: spawn the distribution's stop script and resolve on
its exit. -/
def stopKafkaServer (isWin : Bool) : ShutdownM Unit :=
  ([.stopScriptSpawned (serverStopScript isWin), .stopScriptExited], ())

/-- The handle's `close`:
`this.killProcess(kafkaProcess).then(() => this.stopKafkaServer())`. -/
def closeBroker (isWin : Bool) (exitCode : Int) : ShutdownM Unit :=
  ShutdownM.bind (killProcess exitCode) fun _ => stopKafkaServer isWin

/-- The object `startKafkaProcess` resolves with:
`{ kafkaPort, close: () => ... }`. -/
structure BrokerHandle where
  kafkaPort : Nat
  close : Int → ShutdownM Unit

/-- The arguments the supervisor passes to `spawn`. -/
structure SpawnCall where
  script : String
  args : List String
  env : String → Option String
  cwd : String

/-- The child environment `{ ...process.env, JMX_PORT: '' }`: every parent
variable, with JMX_PORT overridden to the empty string. -/
def childEnv (parentEnv : String → Option String) : String → Option String :=
  fun k => if k = "JMX_PORT" then some "" else parentEnv k

/-- What the supervisor's promise does, in order. -/
inductive SupervisorEvent
  | childSpawned
  | spawnErrorLogged (e : Err)
  | waitedStartup (ms : Nat)
  | handleResolved
deriving Repr, DecidableEq

/-- `startKafkaProcess`: spawn the start script with
`kafkaDir/server.properties` as its argument, the workspace as working
directory and JMX_PORT cleared in the child environment.  A launch failure
only fires the logged `error` handler; the promise executor takes only
`resolve`, and after the fixed startup wait it resolves with the handle, so
there is no reject path.  `spawnError` is the OS outcome of the launch. -/
def startKafkaProcess (isWin : Bool) (parentEnv : String → Option String)
    (spawnError : Option Err) (kafkaDir : String) (kafkaPort : Nat) :
    SpawnCall × BrokerHandle × List SupervisorEvent :=
  let propertiesFile := pathJoin kafkaDir "server.properties"
  ({ script := serverStartScript isWin
     args := [propertiesFile]
     env := childEnv parentEnv
     cwd := kafkaDir },
   { kafkaPort := kafkaPort, close := fun code => closeBroker isWin code },
   [SupervisorEvent.childSpawned]
     ++ (match spawnError with
         | some e => [SupervisorEvent.spawnErrorLogged e]
         | none => [])
     ++ [SupervisorEvent.waitedStartup WAIT_TIME, SupervisorEvent.handleResolved])

/-- The pipeline steps of `startKafkaServer`, in source order. -/
inductive StepName
  | allocatePortsStep
  | createTempDirectoryStep
  | createKafkaConfigStep
  | initializeStorageStep
  | startKafkaProcessStep
deriving Repr, DecidableEq

/-- The events of one `startKafkaServer` run: each awaited step starting, and
the supervisor's own events. -/
inductive PipelineEvent
  | stepStarted (s : StepName)
  | supervisor (e : SupervisorEvent)
deriving Repr, DecidableEq

/-- The operating-system / collaborator inputs of one provisioning run. -/
structure World where
  isWindows : Bool
  bindable : Nat → Bool
  portScanFuel : Nat
  tmpDirResult : Except Err String
  templateResult : Except Err Props
  storageExecError : Option Err
  spawnError : Option Err
  parentEnv : String → Option String

/-- What one `startKafkaServer` run produces: the manager state after the run,
the settled outcome, the spawn call (when the supervisor was reached) and the
ordered event log. -/
structure RunResult where
  manager : KafkaManager
  outcome : Except Err BrokerHandle
  spawnCall : Option SpawnCall
  events : List PipelineEvent

/-- `startKafkaServer`: the sequential provisioning pipeline
(ports → workspace → config → storage → supervisor), each step awaited.  The
surrounding try/catch only logs and rethrows the same error object, so a
failing step's error reaches the caller unchanged and later steps never
start. -/
def KafkaManager.startKafkaServer (m : KafkaManager) (w : World) : RunResult :=
  let ev0 := [PipelineEvent.stepStarted .allocatePortsStep]
  let (m1, portsResult) := m.allocatePorts w.bindable w.portScanFuel
  match portsResult with
  | .error e => { manager := m1, outcome := .error e, spawnCall := none, events := ev0 }
  | .ok ports =>
    let ev1 := ev0 ++ [PipelineEvent.stepStarted .createTempDirectoryStep]
    match createTempDirectory "kafka-" w.tmpDirResult with
    | .error e => { manager := m1, outcome := .error e, spawnCall := none, events := ev1 }
    | .ok kafkaDir =>
      let ev2 := ev1 ++ [PipelineEvent.stepStarted .createKafkaConfigStep]
      match createKafkaConfig w.templateResult kafkaDir ports.controllerPort
          ports.kafkaPort with
      | .error e => { manager := m1, outcome := .error e, spawnCall := none, events := ev2 }
      | .ok config =>
        let ev3 := ev2 ++ [PipelineEvent.stepStarted .initializeStorageStep]
        match (initializeStorage w.isWindows w.storageExecError config.filePath).1 with
        | .error e => { manager := m1, outcome := .error e, spawnCall := none, events := ev3 }
        | .ok _ =>
          let ev4 := ev3 ++ [PipelineEvent.stepStarted .startKafkaProcessStep]
          let (call, handle, supEvents) :=
            startKafkaProcess w.isWindows w.parentEnv w.spawnError kafkaDir
              ports.kafkaPort
          { manager := m1, outcome := .ok handle, spawnCall := some call,
            events := ev4 ++ supEvents.map PipelineEvent.supervisor }

/-- The JS object heap, restricted to `KafkaManager` instances: object
identities and the state stored at each live identity. -/
structure Harness where
  nextId : Nat
  managers : Nat → Option KafkaManager

/-- `new KafkaManager()`: allocate a fresh object identity holding the
constructor's state. -/
def newKafkaManager (h : Harness) : Harness × Nat :=
  ({ nextId := h.nextId + 1,
     managers := fun i => if i = h.nextId then some KafkaManager.init
       else h.managers i },
   h.nextId)

/-- A state update of one instance (what any method call on that object can
do to the heap): the other slots are untouched. -/
def updateManager (h : Harness) (i : Nat) (f : KafkaManager → KafkaManager) :
    Harness :=
  { h with managers := fun j => if j = i then (h.managers j).map f else h.managers j }

/-- `module.exports = function makeKafkaServer()`: construct a fresh
`KafkaManager` and run its pipeline; the factory itself takes no inputs
beyond the ambient heap and operating system. -/
def makeKafkaServer (h : Harness) (w : World) : Harness × Nat × RunResult :=
  let (h1, mid) := newKafkaManager h
  let r := KafkaManager.init.startKafkaServer w
  (updateManager h1 mid (fun _ => r.manager), mid, r)

/-- Two back-to-back runs of the pipeline's port allocator, threading the
manager state from the first into the second, under an unchanged OS
bindability oracle (the probe binds and immediately releases each port, so a
second probe can see the same state). -/
def twoAllocations (m : KafkaManager) (bindable : Nat → Bool) (fuel : Nat) :
    Except Err (PortPair × PortPair) :=
  let (m1, r1) := m.allocatePorts bindable fuel
  match r1 with
  | .error e => .error e
  | .ok p1 =>
    match (m1.allocatePorts bindable fuel).2 with
    | .error e => .error e
    | .ok p2 => .ok (p1, p2)

/-- A small stand-in for the template `server.properties`. -/
def sampleTemplate : Props :=
  [("zookeeper.connect", "localhost:2181"), ("num.partitions", "1")]

/-- A run on a POSIX host where every OS interaction succeeds. -/
def okWorld : World :=
  { isWindows := false
    bindable := fun _ => true
    portScanFuel := 3
    tmpDirResult := .ok "/tmp/kafka-1"
    templateResult := .ok sampleTemplate
    storageExecError := none
    spawnError := none
    parentEnv := fun k => if k = "PATH" then some "/usr/bin" else none }

/-- A run where no port is bindable, so the portfinder probe fails. -/
def portsFailWorld : World := { okWorld with bindable := fun _ => false }

/-- A run where `tmp.dir` fails. -/
def tmpFailWorld : World :=
  { okWorld with tmpDirResult := .error "EACCES: permission denied" }

/-- A run where the template cannot be read by the properties editor. -/
def templateFailWorld : World :=
  { okWorld with templateResult := .error "ENOENT: no such file or directory" }

/-- A run where the storage-format command exits non-zero. -/
def storageFailWorld : World :=
  { okWorld with storageExecError := some "Command failed: exit code 1" }

/-- A run where the server binary cannot be launched. -/
def spawnFailWorld : World :=
  { okWorld with spawnError := some "Error: spawn ENOENT" }

/-! Helper lemmas. -/

theorem getPort_eq_some {bindable : Nat → Bool} :
    ∀ {fuel start p : Nat}, getPort bindable fuel start = some p →
      bindable p = true ∧ start ≤ p := by
  intro fuel
  induction fuel with
  | zero => intro start p h; simp [getPort] at h
  | succ n ih =>
    intro start p h
    rw [getPort] at h
    by_cases hb : bindable start = true
    · rw [if_pos hb] at h
      cases h
      exact ⟨hb, Nat.le_refl _⟩
    · rw [if_neg hb] at h
      have := ih h
      exact ⟨this.1, Nat.le_of_succ_le this.2⟩

theorem lookup_map_ne (t : Props) (k v q : String) (hq : q ≠ k) :
    List.lookup q (t.map fun kv => if kv.1 == k then (k, v) else kv) =
      List.lookup q t := by
  induction t with
  | nil => rfl
  | cons a t ih =>
    obtain ⟨ak, av⟩ := a
    by_cases hak : ak = k
    · subst hak
      simp only [List.map_cons, beq_self_eq_true, if_true, List.lookup_cons]
      have : (q == ak) = false := beq_eq_false_iff_ne.mpr hq
      rw [this, ih]
    · have hfalse : (ak == k) = false := beq_eq_false_iff_ne.mpr hak
      simp only [List.map_cons, hfalse, Bool.false_eq_true, if_false,
        List.lookup_cons]
      cases hqa : q == ak
      · rw [ih]
      · rfl

theorem lookup_map_self (t : Props) (k v : String)
    (h : t.any (fun kv => kv.1 == k) = true) :
    List.lookup k (t.map fun kv => if kv.1 == k then (k, v) else kv) =
      some v := by
  induction t with
  | nil => simp at h
  | cons a t ih =>
    obtain ⟨ak, av⟩ := a
    by_cases hak : ak = k
    · subst hak
      simp [List.lookup_cons]
    · have hfalse : (ak == k) = false := beq_eq_false_iff_ne.mpr hak
      simp only [List.any_cons, hfalse, Bool.false_or] at h
      have hka : (k == ak) = false :=
        beq_eq_false_iff_ne.mpr fun hk => hak hk.symm
      simp only [List.map_cons, hfalse, Bool.false_eq_true, if_false,
        List.lookup_cons, hka]
      exact ih h

theorem lookup_none_of_not_any (t : Props) (k : String)
    (h : t.any (fun kv => kv.1 == k) = false) : List.lookup k t = none := by
  induction t with
  | nil => rfl
  | cons a t ih =>
    obtain ⟨ak, av⟩ := a
    simp only [List.any_cons, Bool.or_eq_false_iff] at h
    have hka : (k == ak) = false := by
      cases hak : ak == k
      · exact beq_eq_false_iff_ne.mpr fun hk =>
          (beq_eq_false_iff_ne.mp hak) hk.symm
      · exact absurd hak (by simp [h.1])
    simp only [List.lookup_cons, hka]
    exact ih h.2

theorem lookup_append (l1 l2 : Props) (q : String) :
    List.lookup q (l1 ++ l2) =
      match List.lookup q l1 with
      | some v => some v
      | none => List.lookup q l2 := by
  induction l1 with
  | nil => rfl
  | cons a t ih =>
    obtain ⟨ak, av⟩ := a
    simp only [List.cons_append, List.lookup_cons]
    cases q == ak
    · exact ih
    · rfl

/-- The one lookup fact about the editor's `set`: the written key now maps to
the new value, every other key is untouched. -/
theorem lookup_propsSet (props : Props) (k v q : String) :
    List.lookup q (propsSet props k v) =
      if q = k then some v else List.lookup q props := by
  unfold propsSet
  cases hany : props.any (fun kv => kv.1 == k)
  · simp only [Bool.false_eq_true, if_false]
    rw [lookup_append]
    by_cases hq : q = k
    · subst hq
      rw [lookup_none_of_not_any props q hany]
      simp [List.lookup_cons]
    · rw [if_neg hq]
      have hqk : (q == k) = false := beq_eq_false_iff_ne.mpr hq
      cases hl : List.lookup q props
      · simp [List.lookup_cons, hqk]
      · rfl
  · simp only [if_true]
    by_cases hq : q = k
    · subst hq
      rw [if_pos rfl, lookup_map_self props q v hany]
    · rw [if_neg hq, lookup_map_ne props k v q hq]

/-- `allocatePorts` succeeds exactly when the two-port probe does, with the
same pair. -/
theorem allocatePorts_ok_iff (m : KafkaManager) (bindable : Nat → Bool)
    (fuel : Nat) (pair : PortPair) :
    (m.allocatePorts bindable fuel).2 = Except.ok pair ↔
      getPorts2 bindable fuel = some pair := by
  unfold KafkaManager.allocatePorts
  cases getPorts2 bindable fuel <;> simp

/-- `allocatePorts` fails exactly when the probe does, with portfinder's
error. -/
theorem allocatePorts_error_iff (m : KafkaManager) (bindable : Nat → Bool)
    (fuel : Nat) (e : Err) :
    (m.allocatePorts bindable fuel).2 = Except.error e ↔
      getPorts2 bindable fuel = none ∧ e = portfinderError := by
  unfold KafkaManager.allocatePorts
  cases getPorts2 bindable fuel <;> simp [eq_comm]

/-- Pipeline scenario: the port probe fails. -/
theorem run_ports_fail (m : KafkaManager) (w : World)
    (hg : getPorts2 w.bindable w.portScanFuel = none) :
    m.startKafkaServer w =
      { manager := m, outcome := .error portfinderError, spawnCall := none,
        events := [PipelineEvent.stepStarted StepName.allocatePortsStep] } := by
  simp [KafkaManager.startKafkaServer, KafkaManager.allocatePorts, hg]

/-- Pipeline scenario: ports found, the workspace creation fails. -/
theorem run_tmp_fail (m : KafkaManager) (w : World) (ports : PortPair) (e : Err)
    (hg : getPorts2 w.bindable w.portScanFuel = some ports)
    (ht : w.tmpDirResult = Except.error e) :
    m.startKafkaServer w =
      { manager := m, outcome := .error e, spawnCall := none,
        events := [PipelineEvent.stepStarted StepName.allocatePortsStep,
                   PipelineEvent.stepStarted StepName.createTempDirectoryStep] } := by
  simp [KafkaManager.startKafkaServer, KafkaManager.allocatePorts,
    createTempDirectory, hg, ht]

/-- Pipeline scenario: ports and workspace obtained, the template read
fails. -/
theorem run_template_fail (m : KafkaManager) (w : World) (ports : PortPair)
    (d : String) (e : Err)
    (hg : getPorts2 w.bindable w.portScanFuel = some ports)
    (ht : w.tmpDirResult = Except.ok d)
    (htpl : w.templateResult = Except.error e) :
    m.startKafkaServer w =
      { manager := m, outcome := .error e, spawnCall := none,
        events := [PipelineEvent.stepStarted StepName.allocatePortsStep,
                   PipelineEvent.stepStarted StepName.createTempDirectoryStep,
                   PipelineEvent.stepStarted StepName.createKafkaConfigStep] } := by
  simp [KafkaManager.startKafkaServer, KafkaManager.allocatePorts,
    createTempDirectory, createKafkaConfig, hg, ht, htpl]

/-- Pipeline scenario: config written, the storage-format command exits
non-zero. -/
theorem run_storage_fail (m : KafkaManager) (w : World) (ports : PortPair)
    (d : String) (tpl : Props) (e : Err)
    (hg : getPorts2 w.bindable w.portScanFuel = some ports)
    (ht : w.tmpDirResult = Except.ok d)
    (htpl : w.templateResult = Except.ok tpl)
    (hst : w.storageExecError = some e) :
    m.startKafkaServer w =
      { manager := m, outcome := .error e, spawnCall := none,
        events := [PipelineEvent.stepStarted StepName.allocatePortsStep,
                   PipelineEvent.stepStarted StepName.createTempDirectoryStep,
                   PipelineEvent.stepStarted StepName.createKafkaConfigStep,
                   PipelineEvent.stepStarted StepName.initializeStorageStep] } := by
  simp [KafkaManager.startKafkaServer, KafkaManager.allocatePorts,
    createTempDirectory, createKafkaConfig, initializeStorage, hg, ht, htpl, hst]

/-- Pipeline scenario: every provisioning step succeeds; the run resolves with
the supervisor's handle. -/
theorem run_success (m : KafkaManager) (w : World) (ports : PortPair)
    (d : String) (tpl : Props)
    (hg : getPorts2 w.bindable w.portScanFuel = some ports)
    (ht : w.tmpDirResult = Except.ok d)
    (htpl : w.templateResult = Except.ok tpl)
    (hst : w.storageExecError = none) :
    m.startKafkaServer w =
      { manager := m
        outcome := .ok (startKafkaProcess w.isWindows w.parentEnv w.spawnError
          d ports.kafkaPort).2.1
        spawnCall := some (startKafkaProcess w.isWindows w.parentEnv
          w.spawnError d ports.kafkaPort).1
        events := [PipelineEvent.stepStarted StepName.allocatePortsStep,
                   PipelineEvent.stepStarted StepName.createTempDirectoryStep,
                   PipelineEvent.stepStarted StepName.createKafkaConfigStep,
                   PipelineEvent.stepStarted StepName.initializeStorageStep,
                   PipelineEvent.stepStarted StepName.startKafkaProcessStep]
          ++ (startKafkaProcess w.isWindows w.parentEnv w.spawnError d
              ports.kafkaPort).2.2.map PipelineEvent.supervisor } := by
  simp [KafkaManager.startKafkaServer, KafkaManager.allocatePorts,
    createTempDirectory, createKafkaConfig, initializeStorage, hg, ht, htpl, hst]

/-- No provisioning step writes the manager's own state: the pipeline returns
it unchanged. -/
theorem startKafkaServer_manager (m : KafkaManager) (w : World) :
    (m.startKafkaServer w).manager = m := by
  unfold KafkaManager.startKafkaServer KafkaManager.allocatePorts
  cases getPorts2 w.bindable w.portScanFuel with
  | none => rfl
  | some ports =>
    cases w.tmpDirResult with
    | error e => rfl
    | ok kafkaDir =>
      cases hc : createKafkaConfig w.templateResult kafkaDir ports.controllerPort
          ports.kafkaPort with
      | error e => simp [createTempDirectory, hc]
      | ok config =>
        cases hs : w.storageExecError with
        | none => simp [createTempDirectory, hc, initializeStorage, hs]
        | some e => simp [createTempDirectory, hc, initializeStorage, hs]

/-- C3: for every template, workspace and port pair, the saved config maps the
five overridden keys to the instance-specific values (log directory with
escaped separators, controller quorum bootstrap address, client and advertised
listener addresses, controller listener name), maps every key outside the five
exactly as the template does, and is written at `workspace/server.properties`,
inside the workspace. -/
theorem c3_config_exact_overrides (template : Props) (kafkaDir : String)
    (cp kp : Nat) (config : ConfigResult)
    (h : createKafkaConfig (.ok template) kafkaDir cp kp = .ok config) :
    List.lookup "log.dirs" config.saved = some (escapeBackslashes kafkaDir) ∧
    List.lookup "controller.quorum.bootstrap.servers" config.saved =
      some ("localhost:" ++ toString cp) ∧
    List.lookup "listeners" config.saved =
      some ("PLAINTEXT://localhost:" ++ toString kp
        ++ ",CONTROLLER://localhost:" ++ toString cp) ∧
    List.lookup "advertised.listeners" config.saved =
      some ("PLAINTEXT://localhost:" ++ toString kp
        ++ ",CONTROLLER://localhost:" ++ toString cp) ∧
    List.lookup "controller.listener.names" config.saved = some "CONTROLLER" ∧
    (∀ q, q ∉ overriddenKeys →
      List.lookup q config.saved = List.lookup q template) ∧
    config.filePath = pathJoin kafkaDir "server.properties" := by
  simp only [createKafkaConfig, Except.ok.injEq] at h
  subst h
  refine ⟨?_, ?_, ?_, ?_, ?_, ?_, rfl⟩
  · simp [lookup_propsSet]
  · simp [lookup_propsSet]
  · simp [lookup_propsSet]
  · simp [lookup_propsSet]
  · simp [lookup_propsSet]
  · intro q hq
    simp only [overriddenKeys, List.mem_cons, List.mem_singleton, not_or] at hq
    obtain ⟨h1, h2, h3, h4, h5, -⟩ := hq
    rw [lookup_propsSet, if_neg h5, lookup_propsSet, if_neg h4,
      lookup_propsSet, if_neg h3, lookup_propsSet, if_neg h2,
      lookup_propsSet, if_neg h1]

/-- Witness for C3 at a concrete template, workspace and port pair. -/
theorem c3_config_exact_overrides_witness :
    List.lookup "log.dirs"
        [("zookeeper.connect", "localhost:2181"), ("num.partitions", "1"),
         ("log.dirs", "/tmp/kafka-1"),
         ("controller.quorum.bootstrap.servers", "localhost:18001"),
         ("listeners", "PLAINTEXT://localhost:18000,CONTROLLER://localhost:18001"),
         ("advertised.listeners", "PLAINTEXT://localhost:18000,CONTROLLER://localhost:18001"),
         ("controller.listener.names", "CONTROLLER")] =
      some (escapeBackslashes "/tmp/kafka-1") ∧
    List.lookup "zookeeper.connect"
        [("zookeeper.connect", "localhost:2181"), ("num.partitions", "1"),
         ("log.dirs", "/tmp/kafka-1"),
         ("controller.quorum.bootstrap.servers", "localhost:18001"),
         ("listeners", "PLAINTEXT://localhost:18000,CONTROLLER://localhost:18001"),
         ("advertised.listeners", "PLAINTEXT://localhost:18000,CONTROLLER://localhost:18001"),
         ("controller.listener.names", "CONTROLLER")] =
      List.lookup "zookeeper.connect" sampleTemplate := by
  have h := c3_config_exact_overrides sampleTemplate "/tmp/kafka-1" 18001 18000
    { filePath := "/tmp/kafka-1/server.properties"
      saved :=
        [("zookeeper.connect", "localhost:2181"), ("num.partitions", "1"),
         ("log.dirs", "/tmp/kafka-1"),
         ("controller.quorum.bootstrap.servers", "localhost:18001"),
         ("listeners", "PLAINTEXT://localhost:18000,CONTROLLER://localhost:18001"),
         ("advertised.listeners", "PLAINTEXT://localhost:18000,CONTROLLER://localhost:18001"),
         ("controller.listener.names", "CONTROLLER")] }
    rfl
  exact ⟨h.1, h.2.2.2.2.2.1 "zookeeper.connect" (by decide)⟩

/-- C4: the shutdown promise chain driven by `close` emits, in strict order,
the SIGKILL to the child, then the observation of the child's exit event, and
only then the spawn of the distribution's stop script; no stop-script spawn
precedes the exit observation. -/
theorem c4_shutdown_order (isWin : Bool) (code : Int) :
    (closeBroker isWin code).1 =
      [ShutdownEvent.sigkillSent, ShutdownEvent.exitObserved code,
       ShutdownEvent.stopScriptSpawned (serverStopScript isWin),
       ShutdownEvent.stopScriptExited] ∧
    (∀ (i j : Nat) (s : String), (closeBroker isWin code).1[i]? =
        some (ShutdownEvent.stopScriptSpawned s) →
      (closeBroker isWin code).1[j]? = some (ShutdownEvent.exitObserved code) →
      j < i) ∧
    (∀ (i j : Nat), (closeBroker isWin code).1[i]? = some ShutdownEvent.sigkillSent →
      (closeBroker isWin code).1[j]? = some (ShutdownEvent.exitObserved code) →
      i < j) := by
  have htr : (closeBroker isWin code).1 =
      [ShutdownEvent.sigkillSent, ShutdownEvent.exitObserved code,
       ShutdownEvent.stopScriptSpawned (serverStopScript isWin),
       ShutdownEvent.stopScriptExited] := rfl
  refine ⟨htr, ?_, ?_⟩
  · intro i j s hi hj
    rw [htr] at hi hj
    rcases i with _ | _ | _ | _ | i <;> rcases j with _ | _ | _ | _ | j <;>
      simp_all
  · intro i j hi hj
    rw [htr] at hi hj
    rcases i with _ | _ | _ | _ | i <;> rcases j with _ | _ | _ | _ | j <;>
      simp_all

/-- Witness for C4 on a POSIX host with exit code 137. -/
theorem c4_shutdown_order_witness :
    (1 : Nat) < 2 ∧ (0 : Nat) < 1 ∧
    (closeBroker false 137).1[1]? = some (ShutdownEvent.exitObserved 137) := by
  have h := c4_shutdown_order false 137
  refine ⟨h.2.1 2 1 (serverStopScript false) ?_ ?_, h.2.2 0 1 ?_ ?_, ?_⟩ <;>
    rw [h.1] <;> decide

/-- C6: `initializeStorage` hands exactly one command to `exec` — the storage
script's `format` subcommand against the given config, its cluster id produced
by the same script's `random-uuid` subcommand — and it resolves with no value
exactly when the external command succeeds, rejecting with the command's own
failure when it exits non-zero. -/
theorem c6_storage_format_once (isWin : Bool) (execError : Option Err)
    (pf : String) :
    (initializeStorage isWin execError pf).2 = [formatCommand isWin pf] ∧
    ((initializeStorage isWin execError pf).1 = Except.ok () ↔
      execError = none) ∧
    (∀ e, execError = some e →
      (initializeStorage isWin execError pf).1 = Except.error e) := by
  refine ⟨rfl, ?_, ?_⟩
  · cases execError <;> simp [initializeStorage]
  · intro e he
    subst he
    rfl

/-- Witness for C6 at a concrete config path, on both exec outcomes. -/
theorem c6_storage_format_once_witness :
    (initializeStorage false (some "Command failed: exit code 1")
        "/tmp/kafka-1/server.properties").1 =
      Except.error "Command failed: exit code 1" ∧
    (initializeStorage false none "/tmp/kafka-1/server.properties").1 =
      Except.ok () ∧
    (initializeStorage false none "/tmp/kafka-1/server.properties").2 =
      [formatCommand false "/tmp/kafka-1/server.properties"] := by
  have h1 := c6_storage_format_once false (some "Command failed: exit code 1")
    "/tmp/kafka-1/server.properties"
  have h2 := c6_storage_format_once false none "/tmp/kafka-1/server.properties"
  exact ⟨h1.2.2 _ rfl, h2.2.1.mpr rfl, h2.1⟩

/-- C7: the supervisor's spawn call passes the generated config file
(`workspace/server.properties`, the exact path `createKafkaConfig` saved) as
the binary's only argument, uses the workspace as working directory, and gives
the child the parent environment with JMX_PORT overridden to the empty
string and every other variable unchanged. -/
theorem c7_spawn_call (isWin : Bool) (parentEnv : String → Option String)
    (spawnError : Option Err) (kafkaDir : String) (kafkaPort : Nat) :
    (startKafkaProcess isWin parentEnv spawnError kafkaDir kafkaPort).1.env
        "JMX_PORT" = some "" ∧
    (∀ k, k ≠ "JMX_PORT" →
      (startKafkaProcess isWin parentEnv spawnError kafkaDir kafkaPort).1.env k =
        parentEnv k) ∧
    (startKafkaProcess isWin parentEnv spawnError kafkaDir kafkaPort).1.args =
      [pathJoin kafkaDir "server.properties"] ∧
    (startKafkaProcess isWin parentEnv spawnError kafkaDir kafkaPort).1.cwd =
      kafkaDir ∧
    (startKafkaProcess isWin parentEnv spawnError kafkaDir kafkaPort).1.script =
      serverStartScript isWin ∧
    (∀ template cp config,
      createKafkaConfig (.ok template) kafkaDir cp kafkaPort = .ok config →
      (startKafkaProcess isWin parentEnv spawnError kafkaDir kafkaPort).1.args =
        [config.filePath]) := by
  refine ⟨rfl, ?_, rfl, rfl, rfl, ?_⟩
  · intro k hk
    simp [startKafkaProcess, childEnv, hk]
  · intro template cp config h
    simp only [createKafkaConfig, Except.ok.injEq] at h
    subst h
    rfl

/-- Witness for C7 at a concrete environment, workspace and template. -/
theorem c7_spawn_call_witness :
    (startKafkaProcess false (fun k => if k = "PATH" then some "/usr/bin" else none)
        none "/tmp/kafka-1" 18000).1.env "PATH" = some "/usr/bin" ∧
    (startKafkaProcess false (fun k => if k = "PATH" then some "/usr/bin" else none)
        none "/tmp/kafka-1" 18000).1.args =
      ["/tmp/kafka-1/server.properties"] := by
  have h := c7_spawn_call false
    (fun k => if k = "PATH" then some "/usr/bin" else none) none "/tmp/kafka-1"
    18000
  refine ⟨(h.2.1 "PATH" (by decide)).trans rfl, ?_⟩
  have h6 := h.2.2.2.2.2 sampleTemplate 18001
    { filePath := "/tmp/kafka-1/server.properties"
      saved :=
        [("zookeeper.connect", "localhost:2181"), ("num.partitions", "1"),
         ("log.dirs", "/tmp/kafka-1"),
         ("controller.quorum.bootstrap.servers", "localhost:18001"),
         ("listeners", "PLAINTEXT://localhost:18000,CONTROLLER://localhost:18001"),
         ("advertised.listeners", "PLAINTEXT://localhost:18000,CONTROLLER://localhost:18001"),
         ("controller.listener.names", "CONTROLLER")] }
    rfl
  exact h6

/-- C1 counterexample: with an unchanged OS probe, two successive successful
allocations in the same process return the very same ports (18000 and 18001
both times): the code records nothing in the taken-ports set, so a port can be
returned by two successful allocations within one harness process lifetime. -/
theorem c1_counterexample :
    twoAllocations KafkaManager.init (fun _ => true) 3 =
      Except.ok (⟨18000, 18001⟩, ⟨18000, 18001⟩) := rfl

/-- C1 (amended): the two ports of a successful allocation are distinct (the
second probe starts strictly above the first hit) and each was bindable when
probed; but `allocatePorts` neither consults nor updates the taken-ports set —
its result is identical for any manager state, even one that already lists the
returned port. -/
theorem c1_ports_distinct_unrecorded (m mAlt : KafkaManager)
    (bindable : Nat → Bool) (fuel : Nat) (pair : PortPair)
    (h : (m.allocatePorts bindable fuel).2 = Except.ok pair) :
    pair.kafkaPort < pair.controllerPort ∧
    pair.kafkaPort ≠ pair.controllerPort ∧
    bindable pair.kafkaPort = true ∧
    bindable pair.controllerPort = true ∧
    BASE_PORT ≤ pair.kafkaPort ∧
    (m.allocatePorts bindable fuel).1 = m ∧
    (mAlt.allocatePorts bindable fuel).2 = Except.ok pair := by
  have hg := (allocatePorts_ok_iff m bindable fuel pair).mp h
  have halt := (allocatePorts_ok_iff mAlt bindable fuel pair).mpr hg
  unfold getPorts2 at hg
  split at hg
  · cases hg
  · rename_i p0 h0
    split at hg
    · cases hg
    · rename_i p1 h1
      injection hg with hg
      subst hg
      obtain ⟨hb0, hge0⟩ := getPort_eq_some h0
      obtain ⟨hb1, hge1⟩ := getPort_eq_some h1
      refine ⟨?_, ?_, hb0, hb1, hge0, rfl, halt⟩
      · show p0 < p1
        omega
      · show p0 ≠ p1
        omega

/-- Witness for the amended C1: a concrete probe, with the alternate manager
already listing port 18000 in its taken-ports set. -/
theorem c1_ports_distinct_unrecorded_witness :
    (KafkaManager.init.allocatePorts (fun _ => true) 3).1 = KafkaManager.init ∧
    ((⟨[18000], ⟨[]⟩⟩ : KafkaManager).allocatePorts (fun _ => true) 3).2 =
      Except.ok ⟨18000, 18001⟩ := by
  have h := c1_ports_distinct_unrecorded KafkaManager.init ⟨[18000], ⟨[]⟩⟩
    (fun _ => true) 3 ⟨18000, 18001⟩ rfl
  exact ⟨h.2.2.2.2.2.1, h.2.2.2.2.2.2⟩

/-- C2 counterexample: in a run where the server binary cannot be launched
(spawn reports ENOENT), the start operation still resolves with a
`BrokerHandle`; the spawn error is only logged, never turned into a
rejection. -/
theorem c2_counterexample :
    (KafkaManager.init.startKafkaServer spawnFailWorld).outcome =
      Except.ok { kafkaPort := 18000, close := fun code => closeBroker false code } ∧
    PipelineEvent.supervisor (SupervisorEvent.spawnErrorLogged "Error: spawn ENOENT")
      ∈ (KafkaManager.init.startKafkaServer spawnFailWorld).events := by
  exact ⟨rfl, by decide⟩

/-- C2 (amended): when the binary cannot be launched, the supervisor merely
logs the spawn error; its promise has no reject path and still resolves, after
the fixed startup wait, with a handle carrying the allocated port. -/
theorem c2_spawn_error_only_logged (isWin : Bool)
    (parentEnv : String → Option String) (spawnError : Option Err)
    (kafkaDir : String) (kafkaPort : Nat) :
    (startKafkaProcess isWin parentEnv spawnError kafkaDir kafkaPort).2.1.kafkaPort
      = kafkaPort ∧
    ((startKafkaProcess isWin parentEnv spawnError kafkaDir kafkaPort).2.2).getLast?
      = some SupervisorEvent.handleResolved ∧
    SupervisorEvent.waitedStartup WAIT_TIME ∈
      (startKafkaProcess isWin parentEnv spawnError kafkaDir kafkaPort).2.2 ∧
    (∀ e, spawnError = some e →
      SupervisorEvent.spawnErrorLogged e ∈
        (startKafkaProcess isWin parentEnv spawnError kafkaDir kafkaPort).2.2) := by
  refine ⟨rfl, ?_, ?_, ?_⟩
  · cases spawnError <;> rfl
  · cases spawnError <;> simp [startKafkaProcess]
  · intro e he
    subst he
    simp [startKafkaProcess]

/-- Witness for the amended C2 at a concrete failed launch. -/
theorem c2_spawn_error_only_logged_witness :
    SupervisorEvent.spawnErrorLogged "Error: spawn ENOENT" ∈
      (startKafkaProcess false (fun _ => none) (some "Error: spawn ENOENT")
        "/tmp/kafka-1" 18000).2.2 ∧
    ((startKafkaProcess false (fun _ => none) (some "Error: spawn ENOENT")
        "/tmp/kafka-1" 18000).2.2).getLast? =
      some SupervisorEvent.handleResolved := by
  have h := c2_spawn_error_only_logged false (fun _ => none)
    (some "Error: spawn ENOENT") "/tmp/kafka-1" 18000
  exact ⟨h.2.2.2 _ rfl, h.2.1⟩

/-- C5: a failure of any provisioning step ends the run at that step: the
failing step's error is the run's outcome, unchanged, and the event log shows
each started step exactly once with no later step ever started; when every
step succeeds the run resolves with a handle. -/
theorem c5_errors_terminal (m : KafkaManager) (w : World) :
    (∀ e, (m.allocatePorts w.bindable w.portScanFuel).2 = Except.error e →
      (m.startKafkaServer w).outcome = Except.error e ∧
      (m.startKafkaServer w).events =
        [PipelineEvent.stepStarted StepName.allocatePortsStep]) ∧
    (∀ ports e,
      (m.allocatePorts w.bindable w.portScanFuel).2 = Except.ok ports →
      w.tmpDirResult = Except.error e →
      (m.startKafkaServer w).outcome = Except.error e ∧
      (m.startKafkaServer w).events =
        [PipelineEvent.stepStarted StepName.allocatePortsStep,
         PipelineEvent.stepStarted StepName.createTempDirectoryStep]) ∧
    (∀ ports d e,
      (m.allocatePorts w.bindable w.portScanFuel).2 = Except.ok ports →
      w.tmpDirResult = Except.ok d →
      w.templateResult = Except.error e →
      (m.startKafkaServer w).outcome = Except.error e ∧
      (m.startKafkaServer w).events =
        [PipelineEvent.stepStarted StepName.allocatePortsStep,
         PipelineEvent.stepStarted StepName.createTempDirectoryStep,
         PipelineEvent.stepStarted StepName.createKafkaConfigStep]) ∧
    (∀ ports d tpl e,
      (m.allocatePorts w.bindable w.portScanFuel).2 = Except.ok ports →
      w.tmpDirResult = Except.ok d →
      w.templateResult = Except.ok tpl →
      w.storageExecError = some e →
      (m.startKafkaServer w).outcome = Except.error e ∧
      (m.startKafkaServer w).events =
        [PipelineEvent.stepStarted StepName.allocatePortsStep,
         PipelineEvent.stepStarted StepName.createTempDirectoryStep,
         PipelineEvent.stepStarted StepName.createKafkaConfigStep,
         PipelineEvent.stepStarted StepName.initializeStorageStep]) ∧
    (∀ ports d tpl,
      (m.allocatePorts w.bindable w.portScanFuel).2 = Except.ok ports →
      w.tmpDirResult = Except.ok d →
      w.templateResult = Except.ok tpl →
      w.storageExecError = none →
      ∃ handle, (m.startKafkaServer w).outcome = Except.ok handle) := by
  refine ⟨?_, ?_, ?_, ?_, ?_⟩
  · intro e he
    obtain ⟨hg, rfl⟩ :=
      (allocatePorts_error_iff m w.bindable w.portScanFuel e).mp he
    rw [run_ports_fail m w hg]
    exact ⟨rfl, rfl⟩
  · intro ports e hp ht
    have hg := (allocatePorts_ok_iff m w.bindable w.portScanFuel ports).mp hp
    rw [run_tmp_fail m w ports e hg ht]
    exact ⟨rfl, rfl⟩
  · intro ports d e hp ht htpl
    have hg := (allocatePorts_ok_iff m w.bindable w.portScanFuel ports).mp hp
    rw [run_template_fail m w ports d e hg ht htpl]
    exact ⟨rfl, rfl⟩
  · intro ports d tpl e hp ht htpl hst
    have hg := (allocatePorts_ok_iff m w.bindable w.portScanFuel ports).mp hp
    rw [run_storage_fail m w ports d tpl e hg ht htpl hst]
    exact ⟨rfl, rfl⟩
  · intro ports d tpl hp ht htpl hst
    have hg := (allocatePorts_ok_iff m w.bindable w.portScanFuel ports).mp hp
    rw [run_success m w ports d tpl hg ht htpl hst]
    exact ⟨_, rfl⟩

/-- Witness for C5: each failing step at a concrete world, with the error
reaching the caller verbatim. -/
theorem c5_errors_terminal_witness :
    (KafkaManager.init.startKafkaServer portsFailWorld).outcome =
      Except.error portfinderError ∧
    (KafkaManager.init.startKafkaServer portsFailWorld).events =
      [PipelineEvent.stepStarted StepName.allocatePortsStep] ∧
    (KafkaManager.init.startKafkaServer tmpFailWorld).outcome =
      Except.error "EACCES: permission denied" ∧
    (KafkaManager.init.startKafkaServer templateFailWorld).outcome =
      Except.error "ENOENT: no such file or directory" ∧
    (KafkaManager.init.startKafkaServer storageFailWorld).outcome =
      Except.error "Command failed: exit code 1" := by
  have h1 := (c5_errors_terminal KafkaManager.init portsFailWorld).1
    portfinderError rfl
  have h2 := (c5_errors_terminal KafkaManager.init tmpFailWorld).2.1
    ⟨18000, 18001⟩ "EACCES: permission denied" rfl rfl
  have h3 := (c5_errors_terminal KafkaManager.init templateFailWorld).2.2.1
    ⟨18000, 18001⟩ "/tmp/kafka-1" "ENOENT: no such file or directory" rfl rfl rfl
  have h4 := (c5_errors_terminal KafkaManager.init storageFailWorld).2.2.2.1
    ⟨18000, 18001⟩ "/tmp/kafka-1" sampleTemplate "Command failed: exit code 1"
    rfl rfl rfl rfl
  exact ⟨h1.1, h1.2, h2.1, h3.1, h4.1⟩

/-- C8: the exported factory is exactly a fresh manager's pipeline run; on a
run where provisioning succeeds it resolves with a handle whose port is the
allocated client port and whose `close` drives the shutdown chain, and the
handle is resolved only as the final event, after the child was spawned and
the fixed 10000 ms startup wait elapsed. -/
theorem c8_factory_resolves_handle (h : Harness) (w : World) (ports : PortPair)
    (d : String) (tpl : Props)
    (hp : (KafkaManager.init.allocatePorts w.bindable w.portScanFuel).2 =
      Except.ok ports)
    (hd : w.tmpDirResult = Except.ok d)
    (htpl : w.templateResult = Except.ok tpl)
    (hst : w.storageExecError = none) :
    (makeKafkaServer h w).2.2 = KafkaManager.init.startKafkaServer w ∧
    WAIT_TIME = 10000 ∧
    ∃ handle pre,
      (makeKafkaServer h w).2.2.outcome = Except.ok handle ∧
      handle.kafkaPort = ports.kafkaPort ∧
      handle.close = (fun code => closeBroker w.isWindows code) ∧
      (makeKafkaServer h w).2.2.events =
        pre ++ [PipelineEvent.supervisor (SupervisorEvent.waitedStartup WAIT_TIME),
                PipelineEvent.supervisor SupervisorEvent.handleResolved] ∧
      PipelineEvent.supervisor SupervisorEvent.childSpawned ∈ pre ∧
      PipelineEvent.supervisor SupervisorEvent.handleResolved ∉ pre := by
  have hg := (allocatePorts_ok_iff KafkaManager.init w.bindable w.portScanFuel
    ports).mp hp
  have hrun := run_success KafkaManager.init w ports d tpl hg hd htpl hst
  have hfac : (makeKafkaServer h w).2.2 = KafkaManager.init.startKafkaServer w :=
    rfl
  refine ⟨hfac, rfl, (startKafkaProcess w.isWindows w.parentEnv w.spawnError d
    ports.kafkaPort).2.1, ?_⟩
  cases hsp : w.spawnError with
  | none =>
    refine ⟨[PipelineEvent.stepStarted StepName.allocatePortsStep,
             PipelineEvent.stepStarted StepName.createTempDirectoryStep,
             PipelineEvent.stepStarted StepName.createKafkaConfigStep,
             PipelineEvent.stepStarted StepName.initializeStorageStep,
             PipelineEvent.stepStarted StepName.startKafkaProcessStep,
             PipelineEvent.supervisor SupervisorEvent.childSpawned],
      ?_, rfl, rfl, ?_, ?_, ?_⟩
    · rw [hfac, hrun, hsp]
    · rw [hfac, hrun]
      simp [startKafkaProcess, hsp]
    · simp
    · simp
  | some e =>
    refine ⟨[PipelineEvent.stepStarted StepName.allocatePortsStep,
             PipelineEvent.stepStarted StepName.createTempDirectoryStep,
             PipelineEvent.stepStarted StepName.createKafkaConfigStep,
             PipelineEvent.stepStarted StepName.initializeStorageStep,
             PipelineEvent.stepStarted StepName.startKafkaProcessStep,
             PipelineEvent.supervisor SupervisorEvent.childSpawned,
             PipelineEvent.supervisor (SupervisorEvent.spawnErrorLogged e)],
      ?_, rfl, rfl, ?_, ?_, ?_⟩
    · rw [hfac, hrun, hsp]
    · rw [hfac, hrun]
      simp [startKafkaProcess, hsp]
    · simp
    · simp

/-- Witness for C8 on the all-success world. -/
theorem c8_factory_resolves_handle_witness :
    (makeKafkaServer ⟨0, fun _ => none⟩ okWorld).2.2 =
      KafkaManager.init.startKafkaServer okWorld ∧
    WAIT_TIME = 10000 := by
  have h := c8_factory_resolves_handle ⟨0, fun _ => none⟩ okWorld
    ⟨18000, 18001⟩ "/tmp/kafka-1" sampleTemplate rfl rfl rfl rfl
  exact ⟨h.1, h.2.1⟩

/-- C9: the taken-ports set stays empty through a harness instance's life: the
constructor creates it empty, the whole pipeline reachable from the public
entry point returns the manager state unchanged, and the pipeline's allocation
path computes the same result whatever the taken-ports set holds. -/
theorem c9_taken_ports_inert (m mAlt : KafkaManager) (w : World)
    (bindable : Nat → Bool) (fuel : Nat) :
    KafkaManager.init.takenPorts = [] ∧
    (m.startKafkaServer w).manager.takenPorts = m.takenPorts ∧
    (KafkaManager.init.startKafkaServer w).manager.takenPorts = [] ∧
    (m.allocatePorts bindable fuel).2 = (mAlt.allocatePorts bindable fuel).2 := by
  refine ⟨rfl, ?_, ?_, rfl⟩
  · rw [startKafkaServer_manager]
  · rw [startKafkaServer_manager]
    exact rfl

/-- C10: each factory call allocates a fresh manager object: two successive
calls yield distinct identities, each holding the constructor state (its own
empty taken-ports list and its own fresh decoder) even after both runs, and a
state update through one identity cannot change what is stored at the
other. -/
theorem c10_fresh_instances_isolated (h : Harness) (w w2 : World)
    (h1 h2 : Harness) (id1 id2 : Nat) (r1 r2 : RunResult)
    (e1 : makeKafkaServer h w = (h1, id1, r1))
    (e2 : makeKafkaServer h1 w2 = (h2, id2, r2)) :
    id1 ≠ id2 ∧
    h1.managers id1 = some KafkaManager.init ∧
    h2.managers id1 = some KafkaManager.init ∧
    h2.managers id2 = some KafkaManager.init ∧
    (∀ g, (updateManager h2 id1 g).managers id2 = h2.managers id2) ∧
    (∀ g, (updateManager h2 id2 g).managers id1 = h2.managers id1) := by
  unfold makeKafkaServer newKafkaManager at e1 e2
  simp only at e1 e2
  injection e1 with eh1 rest1
  injection rest1 with eid1 er1
  subst eh1 eid1 er1
  injection e2 with eh2 rest2
  injection rest2 with eid2 er2
  subst eh2 eid2 er2
  simp only [updateManager, startKafkaServer_manager]
  refine ⟨by omega, ?_, ?_, ?_, ?_, ?_⟩
  · simp [startKafkaServer_manager]
  · simp [startKafkaServer_manager]
  · simp [startKafkaServer_manager]
  · intro g
    simp
  · intro g
    simp

/-- Witness for C10: two factory calls on a concrete empty heap. -/
theorem c10_fresh_instances_isolated_witness :
    (0 : Nat) ≠ (1 : Nat) ∧
    (makeKafkaServer ⟨0, fun _ => none⟩ okWorld).1.managers 0 =
      some KafkaManager.init := by
  have hc := c10_fresh_instances_isolated ⟨0, fun _ => none⟩ okWorld okWorld
    _ _ 0 1 _ _ rfl rfl
  exact ⟨hc.1, hc.2.1⟩

end EmbeddedKafka
